import Mathlib

/-!
Verification of the `secret` subcommand front end (`src/cli/cmd/secrets.go`).

The file is a thin CLI wrapper: each subcommand handler constructs a client,
issues exactly one call on the `SecretsService`, and prints the result or
propagates the error.  We embed each handler as a pure Lean function from an
environment `Env` — the results that the external client library would return
for this invocation — to a `CmdResult` holding the sequence of external effects
performed (client construction and service calls), the text written to standard
output, and the returned error (`none` for a nil error).

Table rendering (`printList` / `printSection`) is modelled as the text the
handler writes into the `tabwriter`: the external `text/tabwriter` package then
replaces tab-separated cells by space-padded aligned columns, preserving the
line structure and the order of cells within each line.
-/

namespace ComposeSecrets

/-- A secret record as used by this file (`secrets.Secret` from `api/secrets`):
identifier, name, username, password, description, all strings.  The field set
follows the spec's data model; `printList` reads `ID`, `Name`, `Description`,
and `NewSecret` fills `Name`, `Username`, `Password`, `Description`. -/
structure Secret where
  ID : String
  Name : String
  Username : String
  Password : String
  Description : String
deriving DecidableEq, Repr

/-- Modelled from the spec: `secrets.NewSecret` lives in `api/secrets`, which is
not under `src/` (only its caller `createSecret` is).  Per the spec, flags map
1:1 to request fields and the identifier is assigned by the external service
upon the create call, so the locally built request secret carries an empty
identifier and exactly the four given values. -/
def NewSecret (name username password description : String) : Secret :=
  { ID := "", Name := name, Username := username, Password := password,
    Description := description }

/-- Modelled from the spec: `secrets.Secret.ToJSON` lives in `api/secrets`,
which is not under `src/` (only its caller `inspectSecret` is).  The spec says
`inspect` serializes the secret details to JSON and fails only if the id is
missing or the remote call errors, so serialization always succeeds; the Go
signature is fallible, hence the `Except` shape kept at the call site. -/
def secretToJSON (s : Secret) : Except String String :=
  .ok ("\x7b\"ID\":\"" ++ s.ID ++ "\",\"Name\":\"" ++ s.Name ++
    "\",\"Username\":\"" ++ s.Username ++ "\",\"Password\":\"" ++ s.Password ++
    "\",\"Description\":\"" ++ s.Description ++ "\"\x7d")

/-- The request-construction struct for `create` (`createSecretOptions` in the
source): exactly the four fields `Label`, `Username`, `Password`,
`Description`. -/
structure createSecretOptions where
  Label : String
  Username : String
  Password : String
  Description : String
deriving DecidableEq, Repr

/-- The request-construction struct for `delete` (`deleteSecretOptions` in the
source): the single boolean `recover`. -/
structure deleteSecretOptions where
  recover : Bool
deriving DecidableEq, Repr

/-- The flags registered on the `create` subcommand, as
(name, shorthand, usage), from the three `StringVarP` calls in the source. -/
def createSecretFlags : List (String × String × String) :=
  [("username", "u", "username"),
   ("password", "p", "password"),
   ("description", "d", "Secret description")]

/-- Modelled from the spec and the flag registrations in the source: cobra
binds `--username`, `--password`, `--description` (each with default `""`) into
the options struct before the handler runs; no flag is registered for `Label`,
which keeps its zero value. -/
def parseCreateFlags (username password description : Option String) :
    createSecretOptions :=
  { Label := "",
    Username := username.getD "",
    Password := password.getD "",
    Description := description.getD "" }

/-- Modelled from the spec: cobra's `BoolVar` for `--recover` (default false)
sets `recover` to true exactly when the flag is present on the command line. -/
def parseDeleteFlags (recoverPresent : Bool) : deleteSecretOptions :=
  { recover := recoverPresent }

/-- An external effect performed by a handler: constructing the client
(`client.New`) or one of the four `SecretsService` calls, with the request
values passed. -/
inductive Eff where
  | newClient : Eff
  | callCreate : Secret → Eff
  | callInspect : String → Eff
  | callList : Eff
  | callDelete : String → Bool → Eff
deriving DecidableEq, Repr

/-- The external world for one invocation: what `client.New` and each
`SecretsService` method would return if called.  Errors are their message
strings. -/
structure Env where
  newClient : Except String Unit
  createResp : Except String String
  inspectResp : Except String Secret
  listResp : Except String (List Secret)
  deleteResp : Except String Unit
deriving Repr

/-- Outcome of one subcommand invocation: the external effects performed in
order, the text written to standard output, and the returned error. -/
structure CmdResult where
  trace : List Eff
  stdout : String
  error : Option String
deriving DecidableEq, Repr

/-- One row of the `list` table as written into the tabwriter:
`ID`, `Name`, `Description` tab-separated, then a newline
(the `Fprintf "%s\t%s\t%s\n"` in `printList`). -/
def printSecretRow (s : Secret) : String :=
  s.ID ++ "\t" ++ s.Name ++ "\t" ++ s.Description ++ "\n"

/-- `printSection`: the headers joined by tabs on their own line
(`Fprintln w (strings.Join headers "\t")`), followed by the body produced by
the printer callback.  The tabwriter then aligns the columns. -/
def printSection (headers : List String) (body : String) : String :=
  String.intercalate "\t" headers ++ "\n" ++ body

/-- `printList`: one row per secret, in list order, under the header
`ID NAME DESCRIPTION`. -/
def printList (secretList : List Secret) : String :=
  printSection ["ID", "NAME", "DESCRIPTION"]
    (String.join (secretList.map printSecretRow))

/-- The `RunE` body of `create NAME`: construct the client, build the secret
from the positional name and the three flag-backed options, call
`CreateSecret`, print the returned identifier (with a trailing newline, via
`fmt.Println`). -/
def createSecretRunE (env : Env) (opts : createSecretOptions)
    (args : List String) : CmdResult :=
  match env.newClient with
  | .error e => { trace := [.newClient], stdout := "", error := some e }
  | .ok _ =>
    let name := args.headD ""
    let secret := NewSecret name opts.Username opts.Password opts.Description
    match env.createResp with
    | .error e =>
      { trace := [.newClient, .callCreate secret], stdout := "", error := some e }
    | .ok id =>
      { trace := [.newClient, .callCreate secret], stdout := id ++ "\n",
        error := none }

/-- The `RunE` body of `inspect ID`: construct the client, call
`InspectSecret` on the positional argument, serialize the result to JSON and
print it (via `fmt.Println`). -/
def inspectSecretRunE (env : Env) (args : List String) : CmdResult :=
  match env.newClient with
  | .error e => { trace := [.newClient], stdout := "", error := some e }
  | .ok _ =>
    match env.inspectResp with
    | .error e =>
      { trace := [.newClient, .callInspect (args.headD "")], stdout := "",
        error := some e }
    | .ok secret =>
      match secretToJSON secret with
      | .error e =>
        { trace := [.newClient, .callInspect (args.headD "")], stdout := "",
          error := some e }
      | .ok out =>
        { trace := [.newClient, .callInspect (args.headD "")],
          stdout := out ++ "\n", error := none }

/-- The `RunE` body of `list`: construct the client, call `ListSecrets`,
render the result with `printList` to standard output. -/
def listSecretsRunE (env : Env) (_args : List String) : CmdResult :=
  match env.newClient with
  | .error e => { trace := [.newClient], stdout := "", error := some e }
  | .ok _ =>
    match env.listResp with
    | .error e =>
      { trace := [.newClient, .callList], stdout := "", error := some e }
    | .ok l =>
      { trace := [.newClient, .callList], stdout := printList l, error := none }

/-- The `RunE` body of `delete NAME`: construct the client and return the
result of `DeleteSecret` on the positional argument and the `recover` option;
nothing is printed. -/
def deleteSecretRunE (env : Env) (opts : deleteSecretOptions)
    (args : List String) : CmdResult :=
  match env.newClient with
  | .error e => { trace := [.newClient], stdout := "", error := some e }
  | .ok _ =>
    match env.deleteResp with
    | .error e =>
      { trace := [.newClient, .callDelete (args.headD "") opts.recover],
        stdout := "", error := some e }
    | .ok _ =>
      { trace := [.newClient, .callDelete (args.headD "") opts.recover],
        stdout := "", error := none }

/-- Modelled from the spec: cobra's `ExactArgs n` validator rejects an
invocation whose positional argument count differs from `n` with an error,
before the `RunE` handler runs. -/
def exactArgsCheck (n : Nat) (args : List String) : Option String :=
  if args.length = n then none
  else some ("accepts " ++ toString n ++ " arg(s), received " ++
    toString args.length)

/-- Full execution of the `create` subcommand: flag parsing, the
`ExactArgs 1` arity check, then the handler. -/
def execCreate (env : Env) (username password description : Option String)
    (args : List String) : CmdResult :=
  match exactArgsCheck 1 args with
  | some e => { trace := [], stdout := "", error := some e }
  | none => createSecretRunE env (parseCreateFlags username password description) args

/-- Full execution of the `inspect` subcommand: the `ExactArgs 1` arity
check, then the handler. -/
def execInspect (env : Env) (args : List String) : CmdResult :=
  match exactArgsCheck 1 args with
  | some e => { trace := [], stdout := "", error := some e }
  | none => inspectSecretRunE env args

/-- Full execution of the `list` subcommand: no arity constraint is declared,
the handler ignores the positional arguments. -/
def execList (env : Env) (args : List String) : CmdResult :=
  listSecretsRunE env args

/-- Full execution of the `delete` subcommand: flag parsing, the
`ExactArgs 1` arity check, then the handler. -/
def execDelete (env : Env) (recoverPresent : Bool) (args : List String) :
    CmdResult :=
  match exactArgsCheck 1 args with
  | some e => { trace := [], stdout := "", error := some e }
  | none => deleteSecretRunE env (parseDeleteFlags recoverPresent) args

/-- Aliases declared on the `delete` subcommand. -/
def deleteSecretAliases : List String := ["rm", "remove"]

/-- Aliases declared on the `list` subcommand. -/
def listSecretsAliases : List String := ["ls"]

/-- The error `e` is one the external client produced for this invocation:
from client construction or from one of the four `SecretsService` calls. -/
def errorFromClient (env : Env) (e : String) : Prop :=
  env.newClient = .error e ∨ env.createResp = .error e ∨
  env.inspectResp = .error e ∨ env.listResp = .error e ∨
  env.deleteResp = .error e

/-- A concrete environment where every external call succeeds. -/
def envOkAll : Env :=
  { newClient := .ok (), createResp := .ok "sid",
    inspectResp := .ok ⟨"i1", "n1", "u1", "p1", "d1"⟩,
    listResp := .ok [⟨"i1", "n1", "u1", "p1", "d1"⟩, ⟨"i2", "n2", "", "", "d2"⟩],
    deleteResp := .ok () }

/-- A concrete environment where the client is constructed but every service
call fails with `"boom"`. -/
def envErrAll : Env :=
  { newClient := .ok (), createResp := .error "boom",
    inspectResp := .error "boom", listResp := .error "boom",
    deleteResp := .error "boom" }

/-- A concrete environment where client construction itself fails. -/
def envClientErr : Env :=
  { newClient := .error "dial failed", createResp := .ok "sid",
    inspectResp := .ok ⟨"i1", "n1", "u1", "p1", "d1"⟩, listResp := .ok [],
    deleteResp := .ok () }

/-- C1: an invocation of `create` with name `name` and optional flag values
`u`, `p`, `d` (each defaulting to `""` when absent), in an environment where
the client can be constructed, performs exactly one `CreateSecret` call, whose
secret is built from exactly those four values; and when the service returns
identifier `id`, the handler prints `id` followed by a newline and returns no
error. -/
theorem create_issues_one_exact_request (env : Env) (name : String)
    (u p d : Option String) (id : String) (hc : env.newClient = .ok ()) :
    (execCreate env u p d [name]).trace =
      [Eff.newClient,
       Eff.callCreate (NewSecret name (u.getD "") (p.getD "") (d.getD ""))] ∧
    (env.createResp = .ok id →
      (execCreate env u p d [name]).stdout = id ++ "\n" ∧
      (execCreate env u p d [name]).error = none) := by
  constructor
  · cases hr : env.createResp with
    | error e =>
      simp [execCreate, exactArgsCheck, createSecretRunE, parseCreateFlags,
        hc, hr]
    | ok i =>
      simp [execCreate, exactArgsCheck, createSecretRunE, parseCreateFlags,
        hc, hr]
  · intro h
    simp [execCreate, exactArgsCheck, createSecretRunE, parseCreateFlags,
      hc, h]

/-- Witness for C1 at a concrete environment and concrete inputs. -/
theorem create_issues_one_exact_request_witness :
    (execCreate envOkAll (some "alice") none (some "demo") ["db"]).trace =
      [Eff.newClient, Eff.callCreate (NewSecret "db" "alice" "" "demo")] ∧
    (execCreate envOkAll (some "alice") none (some "demo") ["db"]).stdout =
      "sid" ++ "\n" ∧
    (execCreate envOkAll (some "alice") none (some "demo") ["db"]).error =
      none :=
  have h := create_issues_one_exact_request envOkAll "db" (some "alice") none
    (some "demo") "sid" rfl
  ⟨h.1, (h.2 rfl).1, (h.2 rfl).2⟩

/-- C2: when `ListSecrets` returns the list `l`, the `list` subcommand renders
exactly one row per secret, in the order of `l` with no client-side sorting,
each row being the secret's `ID`, `Name`, `Description` in that fixed column
order, under the fixed header line. -/
theorem list_renders_rows_in_order (env : Env) (l : List Secret)
    (args : List String) (hc : env.newClient = .ok ())
    (hl : env.listResp = .ok l) :
    (execList env args).stdout =
      "ID\tNAME\tDESCRIPTION\n" ++
        String.join (l.map (fun s =>
          s.ID ++ "\t" ++ s.Name ++ "\t" ++ s.Description ++ "\n")) ∧
    (execList env args).error = none := by
  have hh : String.intercalate "\t" ["ID", "NAME", "DESCRIPTION"] ++ "\n" =
      "ID\tNAME\tDESCRIPTION\n" := by decide
  have hrow : printSecretRow = fun s : Secret =>
      s.ID ++ "\t" ++ s.Name ++ "\t" ++ s.Description ++ "\n" := rfl
  simp [execList, listSecretsRunE, hc, hl, printList, printSection, hrow, hh]

/-- Witness for C2 at a concrete environment with two secrets. -/
theorem list_renders_rows_in_order_witness :
    (execList envOkAll []).stdout =
      "ID\tNAME\tDESCRIPTION\n" ++
        String.join
          (([⟨"i1", "n1", "u1", "p1", "d1"⟩, ⟨"i2", "n2", "", "", "d2"⟩] :
              List Secret).map (fun s =>
            s.ID ++ "\t" ++ s.Name ++ "\t" ++ s.Description ++ "\n")) ∧
    (execList envOkAll []).error = none :=
  list_renders_rows_in_order envOkAll
    [⟨"i1", "n1", "u1", "p1", "d1"⟩, ⟨"i2", "n2", "", "", "d2"⟩] [] rfl rfl

/-- C3: on a `delete` invocation that reaches the service, the boolean passed
as the `recover` argument of `DeleteSecret` is exactly the presence of the
`--recover` flag: the trace holds exactly one `DeleteSecret` call carrying
`present`. -/
theorem delete_recover_flag_exact (env : Env) (name : String) (present : Bool)
    (hc : env.newClient = .ok ()) :
    (execDelete env present [name]).trace =
      [Eff.newClient, Eff.callDelete name present] := by
  simp only [execDelete, exactArgsCheck, List.length_singleton, if_pos rfl,
    deleteSecretRunE, parseDeleteFlags, hc]
  cases hr : env.deleteResp with
  | error e => simp [hr, List.headD]
  | ok u => simp [hr, List.headD]

/-- Witness for C3: with `--recover` present the call carries `true`, and at a
second environment without the flag it carries `false`. -/
theorem delete_recover_flag_exact_witness :
    (execDelete envOkAll true ["db"]).trace =
      [Eff.newClient, Eff.callDelete "db" true] :=
  delete_recover_flag_exact envOkAll "db" true rfl

/-- C4: whichever subcommand is invoked, if its underlying service call
(`CreateSecret`, `InspectSecret`, `ListSecrets`, `DeleteSecret`) returns the
error `e`, the handler writes nothing to standard output and returns exactly
`e` — no partial or garbled output. -/
theorem service_error_means_no_output (env : Env) (opts : createSecretOptions)
    (dopts : deleteSecretOptions) (args : List String) (e : String)
    (hc : env.newClient = .ok ()) :
    (env.createResp = .error e →
      (createSecretRunE env opts args).stdout = "" ∧
      (createSecretRunE env opts args).error = some e) ∧
    (env.inspectResp = .error e →
      (inspectSecretRunE env args).stdout = "" ∧
      (inspectSecretRunE env args).error = some e) ∧
    (env.listResp = .error e →
      (listSecretsRunE env args).stdout = "" ∧
      (listSecretsRunE env args).error = some e) ∧
    (env.deleteResp = .error e →
      (deleteSecretRunE env dopts args).stdout = "" ∧
      (deleteSecretRunE env dopts args).error = some e) := by
  refine ⟨fun h => ?_, fun h => ?_, fun h => ?_, fun h => ?_⟩ <;>
    simp [createSecretRunE, inspectSecretRunE, listSecretsRunE,
      deleteSecretRunE, hc, h]

/-- Witness for C4 at a concrete environment where all four calls fail. -/
theorem service_error_means_no_output_witness :
    ((createSecretRunE envErrAll ⟨"", "", "", ""⟩ ["db"]).stdout = "" ∧
      (createSecretRunE envErrAll ⟨"", "", "", ""⟩ ["db"]).error = some "boom") ∧
    ((inspectSecretRunE envErrAll ["db"]).stdout = "" ∧
      (inspectSecretRunE envErrAll ["db"]).error = some "boom") ∧
    ((listSecretsRunE envErrAll ["db"]).stdout = "" ∧
      (listSecretsRunE envErrAll ["db"]).error = some "boom") ∧
    ((deleteSecretRunE envErrAll ⟨false⟩ ["db"]).stdout = "" ∧
      (deleteSecretRunE envErrAll ⟨false⟩ ["db"]).error = some "boom") :=
  have h := service_error_means_no_output envErrAll ⟨"", "", "", ""⟩ ⟨false⟩
    ["db"] "boom" rfl
  ⟨h.1 rfl, h.2.1 rfl, h.2.2.1 rfl, h.2.2.2 rfl⟩

/-- C5: a `create`, `inspect`, or `delete` invocation whose positional
argument count is not exactly one is rejected with an error while the effect
trace is empty: no client is constructed and no remote call is attempted. -/
theorem arity_mismatch_rejected_before_client (env : Env)
    (u p d : Option String) (present : Bool) (args : List String)
    (h : args.length ≠ 1) :
    (execCreate env u p d args).trace = [] ∧
    (execCreate env u p d args).error.isSome = true ∧
    (execInspect env args).trace = [] ∧
    (execInspect env args).error.isSome = true ∧
    (execDelete env present args).trace = [] ∧
    (execDelete env present args).error.isSome = true := by
  simp [execCreate, execInspect, execDelete, exactArgsCheck, h]

/-- Witness for C5 at zero positional arguments. -/
theorem arity_mismatch_rejected_before_client_witness :
    (execCreate envOkAll none none none []).trace = [] ∧
    (execCreate envOkAll none none none []).error.isSome = true ∧
    (execInspect envOkAll []).trace = [] ∧
    (execInspect envOkAll []).error.isSome = true ∧
    (execDelete envOkAll false []).trace = [] ∧
    (execDelete envOkAll false []).error.isSome = true :=
  arity_mismatch_rejected_before_client envOkAll none none none false []
    (by decide)

/-- C6: every error returned by a subcommand handler is one the external
client produced for this invocation — from client construction or one of the
four `SecretsService` calls — propagated verbatim, with no local recovery,
retry, wrapping, or classification. -/
theorem handler_errors_from_client_verbatim (env : Env)
    (opts : createSecretOptions) (dopts : deleteSecretOptions)
    (args : List String) (e : String) :
    ((createSecretRunE env opts args).error = some e → errorFromClient env e) ∧
    ((inspectSecretRunE env args).error = some e → errorFromClient env e) ∧
    ((listSecretsRunE env args).error = some e → errorFromClient env e) ∧
    ((deleteSecretRunE env dopts args).error = some e → errorFromClient env e) := by
  cases hcl : env.newClient with
  | error ce =>
    refine ⟨fun h => ?_, fun h => ?_, fun h => ?_, fun h => ?_⟩ <;>
      { simp only [createSecretRunE, inspectSecretRunE, listSecretsRunE,
          deleteSecretRunE, hcl, Option.some.injEq] at h
        exact Or.inl (by rw [hcl, h]) }
  | ok u =>
    refine ⟨fun h => ?_, fun h => ?_, fun h => ?_, fun h => ?_⟩
    · cases hr : env.createResp with
      | error re =>
        simp only [createSecretRunE, hcl, hr, Option.some.injEq] at h
        exact Or.inr (Or.inl (by rw [hr, h]))
      | ok i => simp [createSecretRunE, hcl, hr] at h
    · cases hr : env.inspectResp with
      | error re =>
        simp only [inspectSecretRunE, hcl, hr, Option.some.injEq] at h
        exact Or.inr (Or.inr (Or.inl (by rw [hr, h])))
      | ok s => simp [inspectSecretRunE, secretToJSON, hcl, hr] at h
    · cases hr : env.listResp with
      | error re =>
        simp only [listSecretsRunE, hcl, hr, Option.some.injEq] at h
        exact Or.inr (Or.inr (Or.inr (Or.inl (by rw [hr, h]))))
      | ok l => simp [listSecretsRunE, hcl, hr] at h
    · cases hr : env.deleteResp with
      | error re =>
        simp only [deleteSecretRunE, hcl, hr, Option.some.injEq] at h
        exact Or.inr (Or.inr (Or.inr (Or.inr (by rw [hr, h]))))
      | ok v => simp [deleteSecretRunE, hcl, hr] at h

/-- Witness for C6: a concrete environment whose client construction fails
with `"dial failed"`, recovered verbatim from the `create` handler. -/
theorem handler_errors_from_client_verbatim_witness :
    errorFromClient envClientErr "dial failed" :=
  (handler_errors_from_client_verbatim envClientErr ⟨"", "", "", ""⟩ ⟨false⟩
    ["db"] "dial failed").1 rfl

/-- C7 counterexample: `createSecretOptions.Label` is not populated from any
command-line flag.  The `create` subcommand registers flags only for
`username`, `password`, `description` — no `label` flag exists — and even with
all three flags set to non-empty values, `Label` remains the empty string. -/
theorem label_field_not_flag_backed :
    ((createSecretFlags.map Prod.fst).contains "label") = false ∧
    (parseCreateFlags (some "u0") (some "p0") (some "d0")).Label = "" := by
  constructor
  · rfl
  · rfl

/-- C7 (amended): `createSecretOptions` has exactly the four fields `Label`,
`Username`, `Password`, `Description`; `Username`, `Password`, and
`Description` are each populated from the corresponding registered flag
(defaulting to `""`) before the request is built, while `Label` is bound to no
flag and remains the empty string. -/
theorem createSecretOptions_fields_from_flags (u p d : Option String) :
    parseCreateFlags u p d =
      { Label := "", Username := u.getD "", Password := p.getD "",
        Description := d.getD "" } ∧
    ((createSecretFlags.map Prod.fst).contains "label") = false ∧
    createSecretFlags.map Prod.fst = ["username", "password", "description"] :=
  ⟨rfl, rfl, rfl⟩

/-- C8: the `delete` subcommand carries the aliases `rm` and `remove`, and
when `DeleteSecret` succeeds the handler writes nothing to standard output and
returns no error. -/
theorem delete_success_silent (env : Env) (present : Bool) (name : String)
    (hc : env.newClient = .ok ()) (hd : env.deleteResp = .ok ()) :
    deleteSecretAliases = ["rm", "remove"] ∧
    (execDelete env present [name]).stdout = "" ∧
    (execDelete env present [name]).error = none := by
  refine ⟨rfl, ?_, ?_⟩ <;>
    simp [execDelete, exactArgsCheck, deleteSecretRunE, parseDeleteFlags,
      hc, hd]

/-- Witness for C8 at a concrete succeeding environment. -/
theorem delete_success_silent_witness :
    deleteSecretAliases = ["rm", "remove"] ∧
    (execDelete envOkAll true ["db"]).stdout = "" ∧
    (execDelete envOkAll true ["db"]).error = none :=
  delete_success_silent envOkAll true "db" rfl rfl

/-- C9: the `list` rendering always starts with exactly one header line —
`ID`, `NAME`, `DESCRIPTION` joined by tabs — before any secret rows, and for
the empty list it consists of that header line and nothing else. -/
theorem list_header_always_first :
    (∀ l : List Secret, printList l =
      "ID\tNAME\tDESCRIPTION\n" ++ String.join (l.map printSecretRow)) ∧
    printList ([] : List Secret) = "ID\tNAME\tDESCRIPTION\n" := by
  have hh : String.intercalate "\t" ["ID", "NAME", "DESCRIPTION"] ++ "\n" =
      "ID\tNAME\tDESCRIPTION\n" := by decide
  constructor
  · intro l
    simp [printList, printSection, hh]
  · decide

/-- C10: each handler is deterministic — two invocations with equal parsed
arguments, flag values, and external-call results yield equal standard output,
equal effect traces, and an equal error result. -/
theorem handlers_deterministic (env1 env2 : Env) (o1 o2 : createSecretOptions)
    (q1 q2 : deleteSecretOptions) (a1 a2 : List String)
    (he : env1 = env2) (ho : o1 = o2) (hq : q1 = q2) (ha : a1 = a2) :
    createSecretRunE env1 o1 a1 = createSecretRunE env2 o2 a2 ∧
    inspectSecretRunE env1 a1 = inspectSecretRunE env2 a2 ∧
    listSecretsRunE env1 a1 = listSecretsRunE env2 a2 ∧
    deleteSecretRunE env1 q1 a1 = deleteSecretRunE env2 q2 a2 := by
  subst he; subst ho; subst hq; subst ha
  exact ⟨rfl, rfl, rfl, rfl⟩

/-- Witness for C10 at concrete equal invocations. -/
theorem handlers_deterministic_witness :
    createSecretRunE envOkAll ⟨"", "a", "b", "c"⟩ ["db"] =
      createSecretRunE envOkAll ⟨"", "a", "b", "c"⟩ ["db"] ∧
    inspectSecretRunE envOkAll ["db"] = inspectSecretRunE envOkAll ["db"] ∧
    listSecretsRunE envOkAll ["db"] = listSecretsRunE envOkAll ["db"] ∧
    deleteSecretRunE envOkAll ⟨true⟩ ["db"] =
      deleteSecretRunE envOkAll ⟨true⟩ ["db"] :=
  handlers_deterministic envOkAll envOkAll ⟨"", "a", "b", "c"⟩
    ⟨"", "a", "b", "c"⟩ ⟨true⟩ ⟨true⟩ ["db"] ["db"] rfl rfl rfl rfl

end ComposeSecrets
